import Mathlib

/-!
Verification development for the hardware-adaptive runtime configuration layer
(Android CPU affinity assignment and Adreno GPU optimization policy).

The embedding follows the two source files:
  Source/Android/jni/AndroidCommon/CpuAffinity.cpp
  Source/Core/VideoBackends/Vulkan/AdrenoOptimizations.cpp
Stateful code (the process-wide `g_topology`, set once by `InitializeCpuTopology`)
is embedded by passing the detection inputs explicitly; the OS affinity system call
is embedded by returning the mask that would be handed to the OS together with the
boolean result, with the OS's own accept/reject decision as an explicit parameter.
-/

/-- C `strstr(haystack, needle) != nullptr`: the needle occurs as a contiguous
substring of the haystack (case-sensitive, no normalization). -/
def containsSubstr (needle haystack : String) : Bool :=
  (List.range (haystack.data.length + 1)).any (fun i =>
    needle.data.isPrefixOf (haystack.data.drop i))

/-- The `CpuTopology` struct of CpuAffinity.cpp (lines 22-31). Unset cluster
ranges keep the sentinel `-1`; `total_cores` is the OS-reported count. -/
structure CpuTopology where
  is_snapdragon_8_gen_2 : Bool := false
  prime_core : Int := -1
  gold_cores_start : Int := -1
  gold_cores_end : Int := -1
  silver_cores_start : Int := -1
  silver_cores_end : Int := -1
  total_cores : Int := 0
deriving DecidableEq, Repr

/-- `DetectSnapdragon8Gen2` (CpuAffinity.cpp lines 35-57), on the Android build:
the model string must contain "SM8550" or "kalama" and the manufacturer string
must contain "Qualcomm" or "QTI". -/
def DetectSnapdragon8Gen2 (soc_model soc_manufacturer : String) : Bool :=
  (containsSubstr ("SM8550") soc_model || containsSubstr ("kalama") soc_model) &&
  (containsSubstr ("Qualcomm") soc_manufacturer || containsSubstr ("QTI") soc_manufacturer)

/-- `InitializeCpuTopology` (CpuAffinity.cpp lines 59-88): records the
OS-reported processor count, and on a detected Snapdragon 8 Gen 2 installs the
hardcoded reference layout Prime=0, Gold=1..4, Silver=5..7. -/
def InitializeCpuTopology (soc_model soc_manufacturer : String) (nproc : Int) :
    CpuTopology :=
  if DetectSnapdragon8Gen2 soc_model soc_manufacturer then
    { is_snapdragon_8_gen_2 := true
      prime_core := 0
      gold_cores_start := 1
      gold_cores_end := 4
      silver_cores_start := 5
      silver_cores_end := 7
      total_cores := nproc }
  else
    { total_cores := nproc }

/-- Cluster roles of the spec's data model. -/
inductive ClusterRole
  | Prime
  | Gold
  | Silver
deriving DecidableEq, Repr

/-- A cluster with its inclusive core-index range, as in the spec's data model. -/
structure ClusterSpec where
  role : ClusterRole
  range_start : Int
  range_end : Int
deriving DecidableEq, Repr

/-- View of the source struct's sentinel-valued fields as the spec's ordered
cluster list: on a match the three installed ranges, otherwise empty (the
source leaves every range at `-1` and never reads them when unmatched). -/
def clusters (t : CpuTopology) : List ClusterSpec :=
  if t.is_snapdragon_8_gen_2 then
    [⟨ClusterRole.Prime, t.prime_core, t.prime_core⟩,
     ⟨ClusterRole.Gold, t.gold_cores_start, t.gold_cores_end⟩,
     ⟨ClusterRole.Silver, t.silver_cores_start, t.silver_cores_end⟩]
  else []

/-- The C++ loop `for (int i = s; i <= e; i++) v.push_back(i)`. -/
def intRange (s e : Int) : List Int :=
  (List.range (e + 1 - s).toNat).map (fun i => s + i)

/-- Thread roles of the four affinity entry points of CpuAffinity.cpp. -/
inductive ThreadRole
  | PowerPC
  | GPU
  | Audio
  | Generic
deriving DecidableEq, Repr

/-- The core list each of `SetPowerPCThreadAffinity` / `SetGPUThreadAffinity` /
`SetAudioThreadAffinity` / `SetGenericThreadAffinity` (CpuAffinity.cpp lines
142-204) builds and hands to `SetThreadAffinityToCores`; empty when the
function returns early (unmatched topology) or never pins (Generic). -/
def planCores (t : CpuTopology) (role : ThreadRole) : List Int :=
  match role with
  | ThreadRole.PowerPC =>
      if t.is_snapdragon_8_gen_2 then
        intRange t.gold_cores_start t.gold_cores_end
      else []
  | ThreadRole.GPU =>
      if t.is_snapdragon_8_gen_2 then
        t.prime_core :: intRange t.gold_cores_start t.gold_cores_end
      else []
  | ThreadRole.Audio =>
      if t.is_snapdragon_8_gen_2 then
        intRange t.silver_cores_start t.silver_cores_end
      else []
  | ThreadRole.Generic => []

/-- `SetThreadAffinityToCores` (CpuAffinity.cpp lines 90-128). The result's
first component is the boolean the function returns; the second is the cpuset
mask passed to `sched_setaffinity` (`none` when the call is never issued).
`os_accepts` stands for `sched_setaffinity` returning 0. -/
def SetThreadAffinityToCores (total_cores : Int) (cores : List Int)
    (os_accepts : Bool) : Bool × Option (List Int) :=
  if cores.isEmpty then (false, none)
  else
    let cpuset := cores.filter (fun core =>
      decide (0 ≤ core) && decide (core < total_cores))
    if os_accepts then (true, some cpuset) else (false, some cpuset)

/-- `GetRecommendedThreadCount` (CpuAffinity.cpp lines 221-231). -/
def GetRecommendedThreadCount (t : CpuTopology) : Int :=
  if t.is_snapdragon_8_gen_2 then 4 else t.total_cores

/-- `IsAdreno740` (AdrenoOptimizations.cpp lines 16-44). The nullable
`const char*` device name is an `Option String`; the `device_name && ...`
guard becomes the `match` on the option. -/
def IsAdreno740 (device_name : Option String) (vendor_id device_id : Nat) :
    Bool :=
  if vendor_id ≠ 0x5143 then false
  else if device_id = 0x43050A01 || device_id = 0x43051401 then true
  else
    match device_name with
    | none => false
    | some n =>
        containsSubstr ("Adreno (TM) 740") n || containsSubstr ("Adreno 740") n

/-- `IsTurnipDriver` (AdrenoOptimizations.cpp lines 46-61): null name is no
match; otherwise any of the three markers classifies the driver as Turnip. -/
def IsTurnipDriver (device_name : Option String) : Bool :=
  match device_name with
  | none => false
  | some n =>
      containsSubstr ("turnip") n || containsSubstr ("Turnip") n ||
        containsSubstr ("Mesa") n

/-- `GetOptimalExtensions` (AdrenoOptimizations.cpp lines 63-85). First
component: the returned extension list. Second component: whether the
Turnip-specific informational log line was emitted (the only thing the
`has_turnip` branch does). -/
def GetOptimalExtensions (has_turnip : Bool) : List String × Bool :=
  (["VK_KHR_shader_non_semantic_info",
    "VK_EXT_scalar_block_layout",
    "VK_KHR_spirv_1_4",
    "VK_KHR_synchronization_2",
    "VK_EXT_memory_budget",
    "VK_EXT_memory_priority"],
   has_turnip)

/-- `GetOptimalPipelineCacheSize` (AdrenoOptimizations.cpp lines 87-91). -/
def GetOptimalPipelineCacheSize : Nat :=
  512 * 1024 * 1024

/-- The `DescriptorPoolSizes` struct of AdrenoOptimizations.h. -/
structure DescriptorPoolSizes where
  uniform_buffers : Nat
  combined_image_samplers : Nat
  storage_buffers : Nat
  uniform_texel_buffers : Nat
  max_sets : Nat
deriving DecidableEq, Repr

/-- `GetOptimalDescriptorPoolSizes` (AdrenoOptimizations.cpp lines 93-107). -/
def GetOptimalDescriptorPoolSizes : DescriptorPoolSizes :=
  { uniform_buffers := 2048
    combined_image_samplers := 8192
    storage_buffers := 1024
    uniform_texel_buffers := 256
    max_sets := 16384 }

/-- Two cluster ranges are disjoint when one ends before the other starts. -/
def rangesDisjoint (a b : ClusterSpec) : Prop :=
  a.range_end < b.range_start ∨ b.range_end < a.range_start

/-- The topology field set by `InitializeCpuTopology` equals the detector's
verdict. -/
theorem initialize_matched_eq (m mf : String) (n : Int) :
    (InitializeCpuTopology m mf n).is_snapdragon_8_gen_2 =
      DetectSnapdragon8Gen2 m mf := by
  unfold InitializeCpuTopology
  split <;> simp_all

/-- C1: `TopologyDetector.detect` classifies the device as the reference
topology iff the model contains "SM8550" or "kalama" and the manufacturer
contains "Qualcomm" or "QTI" (case-sensitive); on a match the cluster layout is
always Prime = core 0, Gold = cores 1-4, Silver = cores 5-7 regardless of the
OS-reported core count, and on a non-match the cluster list is empty while
`total_cores` is still recorded. -/
theorem topology_detect_c1 (m mf : String) (n : Int) :
    ((InitializeCpuTopology m mf n).is_snapdragon_8_gen_2 = true ↔
      ((containsSubstr ("SM8550") m = true ∨ containsSubstr ("kalama") m = true) ∧
       (containsSubstr ("Qualcomm") mf = true ∨ containsSubstr ("QTI") mf = true))) ∧
    (InitializeCpuTopology m mf n).total_cores = n ∧
    clusters (InitializeCpuTopology m mf n) =
      (if (InitializeCpuTopology m mf n).is_snapdragon_8_gen_2 then
        [⟨ClusterRole.Prime, 0, 0⟩, ⟨ClusterRole.Gold, 1, 4⟩,
         ⟨ClusterRole.Silver, 5, 7⟩]
      else []) := by
  refine ⟨?_, ?_, ?_⟩
  · rw [initialize_matched_eq]
    simp [DetectSnapdragon8Gen2, Bool.and_eq_true, Bool.or_eq_true]
  · unfold InitializeCpuTopology
    split <;> rfl
  · unfold InitializeCpuTopology
    split <;> simp [clusters]

/-- C2: on a topology produced by the detector, the plan for PowerPC is exactly
the Gold cores [1,2,3,4] when matched and empty otherwise, for GPU exactly
Prime plus Gold [0,1,2,3,4] when matched and empty otherwise, for Audio exactly
the Silver cores [5,6,7] when matched and empty otherwise, and for Generic it
is always empty. -/
theorem plan_c2 (m mf : String) (n : Int) :
    planCores (InitializeCpuTopology m mf n) ThreadRole.PowerPC =
      (if (InitializeCpuTopology m mf n).is_snapdragon_8_gen_2 then
        [1, 2, 3, 4] else []) ∧
    planCores (InitializeCpuTopology m mf n) ThreadRole.GPU =
      (if (InitializeCpuTopology m mf n).is_snapdragon_8_gen_2 then
        [0, 1, 2, 3, 4] else []) ∧
    planCores (InitializeCpuTopology m mf n) ThreadRole.Audio =
      (if (InitializeCpuTopology m mf n).is_snapdragon_8_gen_2 then
        [5, 6, 7] else []) ∧
    planCores (InitializeCpuTopology m mf n) ThreadRole.Generic = [] := by
  cases hd : DetectSnapdragon8Gen2 m mf <;>
    simp [InitializeCpuTopology, hd, planCores, intRange]
  decide

/-- C4 counterexample: on a device whose strings match the reference signature
but whose OS reports only 4 cores, the detector still installs the hardcoded
layout, so the Silver range ends at 7 ≥ total_cores = 4 — the containment part
of the invariant fails. -/
theorem topology_invariant_c4_cex :
    (InitializeCpuTopology ("kalama") ("QTI") 4).is_snapdragon_8_gen_2 = true ∧
    (InitializeCpuTopology ("kalama") ("QTI") 4).total_cores = 4 ∧
    ∃ c ∈ clusters (InitializeCpuTopology ("kalama") ("QTI") 4),
      ¬(c.range_end < (InitializeCpuTopology ("kalama") ("QTI") 4).total_cores) := by
  decide

/-- C4 (amended): after detection, the cluster ranges are always pairwise
disjoint and non-negative, and matched=false implies the cluster list is
empty; containment of every range in [0, total_cores) holds whenever the
OS-reported core count is at least 8 (not for smaller counts). -/
theorem topology_invariant_c4 (m mf : String) (n : Int) :
    ((InitializeCpuTopology m mf n).is_snapdragon_8_gen_2 = false →
      clusters (InitializeCpuTopology m mf n) = []) ∧
    List.Pairwise rangesDisjoint (clusters (InitializeCpuTopology m mf n)) ∧
    (∀ c ∈ clusters (InitializeCpuTopology m mf n),
      0 ≤ c.range_start ∧ c.range_start ≤ c.range_end) ∧
    (8 ≤ n → ∀ c ∈ clusters (InitializeCpuTopology m mf n),
      0 ≤ c.range_start ∧
        c.range_end < (InitializeCpuTopology m mf n).total_cores) := by
  unfold InitializeCpuTopology
  split
  · refine ⟨by simp [clusters], by simp [clusters, rangesDisjoint], ?_, ?_⟩
    · intro c hc
      simp [clusters] at hc
      rcases hc with hc | hc | hc <;> subst hc <;> refine ⟨?_, ?_⟩ <;> simp
    · intro h8 c hc
      simp [clusters] at hc
      rcases hc with hc | hc | hc <;> subst hc <;> refine ⟨?_, ?_⟩ <;>
        simp <;> omega
  · refine ⟨fun _ => rfl, ?_, ?_, ?_⟩
    · simp [clusters]
    · simp [clusters]
    · intro h8
      simp [clusters]

/-- Concrete instantiation of the amended C4 invariant at a matched device with
an 8-core report: all hypotheses discharged at (model "kalama",
manufacturer "QTI", 8 cores). -/
theorem topology_invariant_c4_witness :
    ((InitializeCpuTopology ("kalama") ("QTI") 8).is_snapdragon_8_gen_2 = false →
      clusters (InitializeCpuTopology ("kalama") ("QTI") 8) = []) ∧
    List.Pairwise rangesDisjoint (clusters (InitializeCpuTopology ("kalama") ("QTI") 8)) ∧
    (∀ c ∈ clusters (InitializeCpuTopology ("kalama") ("QTI") 8),
      0 ≤ c.range_start ∧ c.range_start ≤ c.range_end) ∧
    (∀ c ∈ clusters (InitializeCpuTopology ("kalama") ("QTI") 8),
      0 ≤ c.range_start ∧
        c.range_end < (InitializeCpuTopology ("kalama") ("QTI") 8).total_cores) := by
  have h := topology_invariant_c4 ("kalama") ("QTI") 8
  exact ⟨h.1, h.2.1, h.2.2.1, h.2.2.2 (by decide)⟩

/-- C5: on a non-empty core list, the applicator issues the OS call with a mask
holding exactly the requested indices inside [0, total_cores); out-of-range
indices are dropped from the mask without affecting the returned result (which
reflects only the OS's verdict). -/
theorem apply_mask_c5 (total : Int) (cores : List Int) (os : Bool)
    (h : cores ≠ []) :
    ∃ mask, (SetThreadAffinityToCores total cores os).2 = some mask ∧
      (∀ c : Int, c ∈ mask ↔ (c ∈ cores ∧ 0 ≤ c ∧ c < total)) ∧
      (SetThreadAffinityToCores total cores os).1 = os := by
  refine ⟨cores.filter (fun core => decide (0 ≤ core) && decide (core < total)),
    ?_, ?_, ?_⟩
  · unfold SetThreadAffinityToCores
    rw [if_neg (by simpa using h)]
    cases os <;> rfl
  · intro c
    simp [List.mem_filter, and_assoc]
  · unfold SetThreadAffinityToCores
    rw [if_neg (by simpa using h)]
    cases os <;> rfl

/-- Concrete instantiation of C5 at total_cores = 8 with the list [0, 9]
(9 out of range), the OS accepting. -/
theorem apply_mask_c5_witness :
    ([0, 9] : List Int) ≠ [] ∧
    (∃ mask, (SetThreadAffinityToCores 8 [0, 9] true).2 = some mask ∧
      (∀ c : Int, c ∈ mask ↔ (c ∈ ([0, 9] : List Int) ∧ 0 ≤ c ∧ c < 8)) ∧
      (SetThreadAffinityToCores 8 [0, 9] true).1 = true) :=
  ⟨by decide, apply_mask_c5 8 [0, 9] true (by decide)⟩

/-- C6: with an empty plan the applicator returns false and issues no OS
affinity call (the mask component is `none`), whatever the OS would answer. -/
theorem apply_empty_c6 (total : Int) (os : Bool) :
    SetThreadAffinityToCores total [] os = (false, none) := rfl

/-- C3: the family is Adreno740 iff vendor_id is 0x5143 and either the
device_id is one of the two reference identifiers or the device name contains
"Adreno (TM) 740" or "Adreno 740"; so a non-Qualcomm vendor_id always yields
Unknown, and with the Qualcomm vendor either reference device_id yields
Adreno740 whatever the name. -/
theorem gpu_detect_c3 (name : Option String) (vendor device : Nat) :
    (IsAdreno740 name vendor device = true ↔
      (vendor = 0x5143 ∧
        (device = 0x43050A01 ∨ device = 0x43051401 ∨
          ∃ n, name = some n ∧
            (containsSubstr ("Adreno (TM) 740") n = true ∨
             containsSubstr ("Adreno 740") n = true)))) ∧
    (vendor ≠ 0x5143 → IsAdreno740 name vendor device = false) ∧
    (vendor = 0x5143 → device = 0x43050A01 ∨ device = 0x43051401 →
      IsAdreno740 name vendor device = true) := by
  refine ⟨?_, ?_, ?_⟩
  · unfold IsAdreno740
    by_cases hv : vendor = 0x5143
    · simp only [hv, ne_eq, not_true_eq_false, if_false]
      by_cases hid : device = 0x43050A01 ∨ device = 0x43051401
      · rcases hid with hid | hid <;> simp [hid]
      · push_neg at hid
        rw [if_neg (by simp [hid.1, hid.2])]
        cases name <;> simp [hid.1, hid.2]
    · simp [IsAdreno740, hv]
  · intro hv
    simp [IsAdreno740, hv]
  · intro hv hid
    unfold IsAdreno740
    rcases hid with hid | hid <;> simp [hv, hid]

/-- C7: on a null device name and an unrecognized device_id the detector is
total and matches nothing: the family check is false for every vendor_id and
the driver check is false (no null dereference is possible in the embedding,
both functions being total on `none`). -/
theorem gpu_null_c7 (vendor device : Nat)
    (h1 : device ≠ 0x43050A01) (h2 : device ≠ 0x43051401) :
    IsAdreno740 none vendor device = false ∧ IsTurnipDriver none = false := by
  refine ⟨?_, rfl⟩
  unfold IsAdreno740
  by_cases hv : vendor = 0x5143 <;> simp [hv, h1, h2]

/-- Concrete instantiation of C7 at vendor_id 0x5143 and device_id 0. -/
theorem gpu_null_c7_witness :
    (0 : Nat) ≠ 0x43050A01 ∧ (0 : Nat) ≠ 0x43051401 ∧
    (IsAdreno740 none 0x5143 0 = false ∧ IsTurnipDriver none = false) :=
  ⟨by decide, by decide, gpu_null_c7 0x5143 0 (by decide) (by decide)⟩

/-- C8: the scenario ("Adreno (TM) 740", 0x5143, 0xDEADBEEF) is classified as
Adreno740 through the name-fallback path (the device_id matches neither
reference identifier, the name fragment does match), and the policy constants
are max_sets = 16384 and a 512 MiB pipeline cache. -/
theorem gpu_scenario_c8 :
    IsAdreno740 (some ("Adreno (TM) 740")) 0x5143 0xDEADBEEF = true ∧
    ¬((0xDEADBEEF : Nat) = 0x43050A01 ∨ (0xDEADBEEF : Nat) = 0x43051401) ∧
    containsSubstr ("Adreno (TM) 740") ("Adreno (TM) 740") = true ∧
    GetOptimalDescriptorPoolSizes.max_sets = 16384 ∧
    GetOptimalPipelineCacheSize = 512 * 1024 * 1024 := by
  decide

/-- C9: the extension list is independent of the driver classification: the
has_turnip input changes only the logging, never the returned sequence. -/
theorem extensions_noninterference_c9 :
    (GetOptimalExtensions true).1 = (GetOptimalExtensions false).1 :=
  rfl

/-- C10: `GetRecommendedThreadCount` returns 4 (the Gold-cluster size) on every
matched topology the detector can produce, and the OS-reported total core
count otherwise. -/
theorem thread_count_c10 (m mf : String) (n : Int) :
    GetRecommendedThreadCount (InitializeCpuTopology m mf n) =
      (if (InitializeCpuTopology m mf n).is_snapdragon_8_gen_2 then 4 else n) := by
  unfold GetRecommendedThreadCount InitializeCpuTopology
  split <;> simp
